import Mathlib

/-!
Verification of the dual-schema reconciliation core of the
`terraform-provider-landscape` repository.

The Go source is shallowly embedded: the terraform-plugin-framework
three-state attribute values (null / unknown / value) become the
inductive `TFVal`, Go pointer fields become `Option`, and the remote
calls issued by an operation are collected into an explicit list of
`RemoteCall` values.  Each definition mirrors one Go function of the
repository; the mirrored function is named in the doc comment.
-/

namespace Landscape

/-- Terraform attribute value: the terraform-plugin-framework three-state
value model (null, unknown, or a concrete value).  The zero value of the
Go framework types (for example `types.String` declared with `var`) is
the null value, which this embedding writes `TFVal.null`. -/
inductive TFVal (α : Type) where
  | null : TFVal α
  | unknown : TFVal α
  | val : α → TFVal α
deriving DecidableEq, Repr

/-- Mirrors `IsNull() || IsUnknown()` checks on framework values. -/
def TFVal.isNullOrUnknown : TFVal α → Bool
  | .val _ => false
  | _ => true

/-- Mirrors `ValueString()`: the zero string for null or unknown values. -/
def TFVal.valueStr : TFVal String → String
  | .val s => s
  | _ => ""

/-- Mirrors `ValueInt64()`: zero for null or unknown values. -/
def TFVal.valueInt : TFVal Int → Int
  | .val n => n
  | _ => 0

/-- Mirrors `types.StringPointerValue`: null for a nil pointer. -/
def stringPointerValue : Option String → TFVal String
  | none => .null
  | some s => .val s

/-- Mirrors `types.Int64PointerValue` applied to an optional integer. -/
def int64PointerValue : Option Int → TFVal Int
  | none => .null
  | some n => .val n

/-- Mirrors `types.BoolPointerValue`: null for a nil pointer. -/
def boolPointerValue : Option Bool → TFVal Bool
  | none => .null
  | some b => .val b

/-! ## Decoded remote records (client library structs as the provider uses them)

These mirror the `landscape.V1Script` and `landscape.V2Script` structs of
the API client, with Go pointer fields as `Option`.  The `CreatedBy.Id`
field of a V2 script is dereferenced unconditionally by the provider
source, so it is embedded as a plain `Int`. -/

/-- Creator record of a legacy (V1) script: all three fields are pointers. -/
structure V1Creator where
  id : Option Int
  name : Option String
  email : Option String
deriving DecidableEq, Repr

/-- Legacy (V1) script as decoded by the client library. -/
structure V1Script where
  id : Int
  title : String
  accessGroup : Option String
  username : Option String
  timeLimit : Option Int
  creator : V1Creator
  status : String
  attachments : Option (List String)
deriving DecidableEq, Repr

/-- Creator record of a modern (V2) script (no email field). -/
structure V2CreatedBy where
  id : Int
  name : Option String
deriving DecidableEq, Repr

/-- Last-editor record of a modern (V2) script. -/
structure V2LastEditedBy where
  id : Option Int
  name : Option String
deriving DecidableEq, Repr

/-- Modern attachment entry: numeric id plus filename. -/
structure V2Attachment where
  id : Int
  filename : String
deriving DecidableEq, Repr

/-- Script profile entry attached to a modern script. -/
structure ScriptProfile where
  id : Int
  title : String
deriving DecidableEq, Repr

/-- Modern (V2) script as decoded by the client library. -/
structure V2Script where
  id : Int
  title : String
  accessGroup : Option String
  interpreter : Option String
  code : Option String
  createdAt : Option String
  createdBy : Option V2CreatedBy
  lastEditedAt : Option String
  lastEditedBy : Option V2LastEditedBy
  status : String
  versionNumber : Option Int
  username : Option String
  timeLimit : Option Int
  isEditable : Option Bool
  isExecutable : Option Bool
  isRedactable : Option Bool
  attachments : Option (List V2Attachment)
  scriptProfiles : Option (List ScriptProfile)
deriving DecidableEq, Repr

/-! ## Local state records (tfsdk models) -/

/-- Object value with the `createdByAttrTypes` shape (id, name, email). -/
structure CreatedByObj where
  id : TFVal Int
  name : TFVal String
  email : TFVal String
deriving DecidableEq, Repr

/-- Object value with the two-field shape of `v2LastEditedByAttrTypes`
and of the created_by object of the dedicated V2 resource (id, name). -/
structure EditorObj where
  id : TFVal Int
  name : TFVal String
deriving DecidableEq, Repr

/-- Element of the `attachments` list with the `scriptAttachmentAttrType`
shape (optional id, filename). -/
structure AttachmentObj where
  id : TFVal Int
  filename : TFVal String
deriving DecidableEq, Repr

/-- Element of the `script_profiles` list. -/
structure ProfileObj where
  id : TFVal Int
  title : TFVal String
deriving DecidableEq, Repr

/-- Mirrors `ScriptResourceModel` of `script_resource.go` (the unified
resource that represents either a V1 or a V2 script in state). -/
structure ScriptResourceModel where
  id : TFVal Int
  title : TFVal String
  accessGroup : TFVal String
  code : TFVal String
  createdAt : TFVal String
  createdBy : TFVal CreatedByObj
  lastEditedAt : TFVal String
  status : TFVal String
  versionNumber : TFVal Int
  username : TFVal String
  timeLimit : TFVal Int
  isEditable : TFVal Bool
  isExecutable : TFVal Bool
  isRedactable : TFVal Bool
  lastEditedBy : TFVal EditorObj
  attachments : TFVal (List AttachmentObj)
  scriptProfiles : TFVal (List ProfileObj)
deriving DecidableEq, Repr

/-- Mirrors `ScriptV2ResourceModel` of `script_v2_resource.go`; its
created_by object has no email field. -/
structure ScriptV2ResourceModel where
  id : TFVal Int
  title : TFVal String
  accessGroup : TFVal String
  code : TFVal String
  createdAt : TFVal String
  createdBy : TFVal EditorObj
  lastEditedAt : TFVal String
  status : TFVal String
  versionNumber : TFVal Int
  username : TFVal String
  timeLimit : TFVal Int
  isEditable : TFVal Bool
  isExecutable : TFVal Bool
  isRedactable : TFVal Bool
  lastEditedBy : TFVal EditorObj
  attachments : TFVal (List AttachmentObj)
  scriptProfiles : TFVal (List ProfileObj)
deriving DecidableEq, Repr

/-- Element of the V1 resource attachments list (filename only). -/
structure V1AttachmentObj where
  filename : TFVal String
deriving DecidableEq, Repr

/-- Mirrors `ScriptV1ResourceModel` of `script_v1_resource.go`. -/
structure ScriptV1ResourceModel where
  id : TFVal Int
  title : TFVal String
  accessGroup : TFVal String
  code : TFVal String
  createdBy : TFVal CreatedByObj
  status : TFVal String
  username : TFVal String
  timeLimit : TFVal Int
  attachments : TFVal (List V1AttachmentObj)
deriving DecidableEq, Repr

/-! ## State projection of a modern (V2) script -/

/-- Mirrors the merged-code computation shared by `v2ScriptToState`
(`script_resource.go` lines 750 to 753) and `v2ScriptToResourceState`
(`script_v2_resource.go` lines 449 to 452): `var mergedCode types.String`
(the framework zero value, which is null) stays null unless both the
interpreter pointer and the code pointer are non-nil, in which case the
value is the interpreter line (`#!` plus the interpreter string), a
newline, and the body. -/
def v2MergedCode (s : V2Script) : TFVal String :=
  match s.interpreter, s.code with
  | some i, some c => .val ("#!" ++ i ++ "\n" ++ c)
  | _, _ => .null

/-- Mirrors the created_by block of `v2ScriptToState`: object null when
the pointer is nil, otherwise an object with email explicitly null. -/
def v2CreatedByToObj : Option V2CreatedBy → TFVal CreatedByObj
  | none => .null
  | some cb => .val { id := .val cb.id, name := stringPointerValue cb.name, email := .null }

/-- Mirrors the created_by block of `v2ScriptToResourceState` (two-field
object, no email). -/
def v2CreatedByToEditorObj : Option V2CreatedBy → TFVal EditorObj
  | none => .null
  | some cb => .val { id := .val cb.id, name := stringPointerValue cb.name }

/-- Mirrors the last_edited_by block shared by both V2 projections. -/
def v2LastEditedByToObj : Option V2LastEditedBy → TFVal EditorObj
  | none => .null
  | some le => .val { id := int64PointerValue le.id, name := stringPointerValue le.name }

/-- Mirrors the V2 attachments block: list null when the pointer is nil,
otherwise every entry keeps its present numeric id and filename. -/
def v2AttachmentsToObjs : Option (List V2Attachment) → TFVal (List AttachmentObj)
  | none => .null
  | some l => .val (l.map fun a => { id := .val a.id, filename := .val a.filename })

/-- Mirrors the script_profiles block of the V2 projections. -/
def v2ProfilesToObjs : Option (List ScriptProfile) → TFVal (List ProfileObj)
  | none => .null
  | some l => .val (l.map fun sp => { id := .val sp.id, title := .val sp.title })

/-- Mirrors `v2ScriptToState` of `script_resource.go` (lines 672 to 787):
projection of a decoded modern script into the unified resource model. -/
def v2ScriptToState (s : V2Script) : ScriptResourceModel :=
  { id := .val s.id
    title := .val s.title
    accessGroup := stringPointerValue s.accessGroup
    code := v2MergedCode s
    createdAt := stringPointerValue s.createdAt
    createdBy := v2CreatedByToObj s.createdBy
    lastEditedAt := stringPointerValue s.lastEditedAt
    status := .val s.status
    versionNumber := int64PointerValue s.versionNumber
    username := stringPointerValue s.username
    timeLimit := int64PointerValue s.timeLimit
    isEditable := boolPointerValue s.isEditable
    isExecutable := boolPointerValue s.isExecutable
    isRedactable := boolPointerValue s.isRedactable
    lastEditedBy := v2LastEditedByToObj s.lastEditedBy
    attachments := v2AttachmentsToObjs s.attachments
    scriptProfiles := v2ProfilesToObjs s.scriptProfiles }

/-- Mirrors `v2ScriptToResourceState` of `script_v2_resource.go`
(lines 371 to 484): projection of a decoded modern script into the
dedicated V2 resource model. -/
def v2ScriptToResourceState (s : V2Script) : ScriptV2ResourceModel :=
  { id := .val s.id
    title := .val s.title
    accessGroup := stringPointerValue s.accessGroup
    code := v2MergedCode s
    createdAt := stringPointerValue s.createdAt
    createdBy := v2CreatedByToEditorObj s.createdBy
    lastEditedAt := stringPointerValue s.lastEditedAt
    status := .val s.status
    versionNumber := int64PointerValue s.versionNumber
    username := stringPointerValue s.username
    timeLimit := int64PointerValue s.timeLimit
    isEditable := boolPointerValue s.isEditable
    isExecutable := boolPointerValue s.isExecutable
    isRedactable := boolPointerValue s.isRedactable
    lastEditedBy := v2LastEditedByToObj s.lastEditedBy
    attachments := v2AttachmentsToObjs s.attachments
    scriptProfiles := v2ProfilesToObjs s.scriptProfiles }

/-! ## State projection of a legacy (V1) script -/

/-- Mirrors the creator block of `v1ScriptWithCodeToState` and
`v1ScriptToResourceState`: each nil pointer leaves the local Go variable
at its zero value (0 for the id, the empty string for name and email),
and the object is then built from those zero-filled values, so every
subfield is a present value, never null. -/
def v1CreatorToObj (c : V1Creator) : CreatedByObj :=
  { id := .val (c.id.getD 0)
    name := .val (c.name.getD "")
    email := .val (c.email.getD "") }

/-- Mirrors the attachments block of `v1ScriptWithCodeToState`
(`script_resource.go` lines 629 to 647): bare filenames become objects
whose id is explicitly null. -/
def v1AttachmentsToObjs : Option (List String) → TFVal (List AttachmentObj)
  | none => .null
  | some fs => .val (fs.map fun f => { id := .null, filename := .val f })

/-- Mirrors the attachments block of `v1ScriptToResourceState`
(filename-only objects). -/
def v1AttachmentsToV1Objs : Option (List String) → TFVal (List V1AttachmentObj)
  | none => .null
  | some fs => .val (fs.map fun f => { filename := .val f })

/-- Mirrors `v1ScriptWithCodeToState` of `script_resource.go` (lines 589
to 670): projection of a decoded legacy script plus separately fetched
code into the unified resource model. -/
def v1ScriptWithCodeToState (v1 : V1Script) (rawCode : String) : ScriptResourceModel :=
  { id := .val v1.id
    title := .val v1.title
    accessGroup := stringPointerValue v1.accessGroup
    code := .val rawCode
    createdAt := .null
    createdBy := .val (v1CreatorToObj v1.creator)
    lastEditedAt := .null
    status := .val v1.status
    versionNumber := .null
    username := stringPointerValue v1.username
    timeLimit := int64PointerValue v1.timeLimit
    isEditable := .null
    isExecutable := .null
    isRedactable := .null
    lastEditedBy := .null
    attachments := v1AttachmentsToObjs v1.attachments
    scriptProfiles := .null }

/-- Mirrors `v1ScriptToResourceState` of `script_v1_resource.go`
(lines 399 to 473): projection of a decoded legacy script plus fetched
code into the dedicated V1 resource model. -/
def v1ScriptToResourceState (v1 : V1Script) (rawCode : String) : ScriptV1ResourceModel :=
  { id := .val v1.id
    title := .val v1.title
    accessGroup := stringPointerValue v1.accessGroup
    code := .val rawCode
    createdBy := .val (v1CreatorToObj v1.creator)
    status := .val v1.status
    username := stringPointerValue v1.username
    timeLimit := int64PointerValue v1.timeLimit
    attachments := v1AttachmentsToV1Objs v1.attachments }

/-! ## Remote calls and flat parameter encoding

Mutating calls encode parameters as a flat string-keyed map
(`url.Values`).  A parameter value records how the Go source produced
the string: a raw string, `fmt.Sprint` of an integer, base64 of a code
string, or the composite attachment `file` parameter
(filename, two dollar signs, base64 content). -/

/-- Value of one flat request parameter, tagged with its encoding. -/
inductive ParamVal where
  | str : String → ParamVal
  | int : Int → ParamVal
  | b64 : String → ParamVal
  | fileB64 : String → String → ParamVal
deriving DecidableEq, Repr

/-- One remote API call issued by an operation. -/
inductive RemoteCall where
  | invokeLegacyAction : String → List (String × ParamVal) → RemoteCall
  | archiveScript : Int → RemoteCall
  | getScript : Int → RemoteCall
  | getScriptAttachment : Int → Int → RemoteCall
deriving DecidableEq, Repr

/-- Keys present in a flat parameter list. -/
def paramKeys (l : List (String × ParamVal)) : List String :=
  l.map Prod.fst

/-! ## Delete operations -/

/-- Mirrors `ScriptV2Resource.Delete` of `script_v2_resource.go`
(lines 353 to 365): always issues `ArchiveScript` with the stored id
(via `ValueInt64`, zero when null or unknown); V2 scripts cannot be
removed, only archived. -/
def scriptV2ResourceDelete (st : ScriptV2ResourceModel) : List RemoteCall :=
  [.archiveScript st.id.valueInt]

/-- Mirrors `ScriptV1Resource.Delete` of `script_v1_resource.go`
(lines 346 to 365): no call when the id is null or unknown, otherwise
one `RemoveScript` legacy action. -/
def scriptV1ResourceDelete (st : ScriptV1ResourceModel) : List RemoteCall :=
  if st.id.isNullOrUnknown then []
  else [.invokeLegacyAction "RemoveScript" [("script_id", .int st.id.valueInt)]]

/-- Mirrors `ScriptResource.Delete` of `script_resource.go` (lines 448
to 471): no call when the id is null or unknown; no call at all when the
stored status differs from the value V1 (the Go code compares
`state.Status != types.StringValue("V1")` and returns); otherwise one
`RemoveScript` legacy action. -/
def scriptResourceDelete (st : ScriptResourceModel) : List RemoteCall :=
  if st.id.isNullOrUnknown then []
  else if st.status ≠ TFVal.val "V1" then []
  else [.invokeLegacyAction "RemoveScript" [("script_id", .int st.id.valueInt)]]

/-! ## Update parameter encoding -/

/-- Mirrors the `vals` construction of `ScriptResource.updateScript`
(`script_resource.go` lines 477 to 494): `script_id` always; `title`,
`time_limit` and `username` whenever the planned value is known and
non-null (no comparison with prior state); `code` only when the planned
value is known, non-null and differs from the prior state code. -/
def updateScriptVals (plan state : ScriptResourceModel) : List (String × ParamVal) :=
  [("script_id", .int state.id.valueInt)]
    ++ (if plan.title.isNullOrUnknown then [] else [("title", .str plan.title.valueStr)])
    ++ (if plan.timeLimit.isNullOrUnknown then [] else [("time_limit", .int plan.timeLimit.valueInt)])
    ++ (if plan.username.isNullOrUnknown then [] else [("username", .str plan.username.valueStr)])
    ++ (if ¬plan.code.isNullOrUnknown ∧ plan.code ≠ state.code
        then [("code", .b64 plan.code.valueStr)] else [])

/-- Mirrors the `vals` construction of `ScriptV2Resource.Update`
(`script_v2_resource.go` lines 302 to 318), identical in logic to
`updateScriptVals`. -/
def scriptV2UpdateVals (plan state : ScriptV2ResourceModel) : List (String × ParamVal) :=
  [("script_id", .int state.id.valueInt)]
    ++ (if plan.title.isNullOrUnknown then [] else [("title", .str plan.title.valueStr)])
    ++ (if plan.timeLimit.isNullOrUnknown then [] else [("time_limit", .int plan.timeLimit.valueInt)])
    ++ (if plan.username.isNullOrUnknown then [] else [("username", .str plan.username.valueStr)])
    ++ (if ¬plan.code.isNullOrUnknown ∧ plan.code ≠ state.code
        then [("code", .b64 plan.code.valueStr)] else [])

/-! ## Attachment resources -/

/-- Mirrors `scriptAttachmentResourceModel` of the legacy attachment
resource and `scriptV2AttachmentResourceModel` of the V2 attachment
resource (both have the same four attributes). -/
structure ScriptAttachmentModel where
  id : TFVal Int
  scriptId : TFVal Int
  filename : TFVal String
  content : TFVal String
deriving DecidableEq, Repr

/-- Outcome of an attachment resource operation: the diagnostics added,
the remote calls issued, and the state written (none when no
`resp.State.Set` runs). -/
structure AttachmentOpOutcome where
  errors : List (String × String)
  calls : List RemoteCall
  newState : Option ScriptAttachmentModel
deriving DecidableEq, Repr

/-- Mirrors `ScriptAttachmentResource.Update` (legacy attachment
resource, lines 202 to 207): the method body only adds the
unsupported-update diagnostic; it makes no client call and never writes
state. -/
def scriptAttachmentResourceUpdate (_plan _state : ScriptAttachmentModel) : AttachmentOpOutcome :=
  { errors := [("Update not supported for script attachments",
      "Script attachments are immutable. To change the filename or content, delete and recreate the attachment.")]
    calls := []
    newState := none }

/-- Mirrors `ScriptV2AttachmentResource.Update` (V2 attachment resource,
lines 199 to 204): identical unsupported-update behaviour. -/
def scriptV2AttachmentResourceUpdate (_plan _state : ScriptAttachmentModel) : AttachmentOpOutcome :=
  { errors := [("Update not supported for script attachments",
      "Script attachments are immutable. To change the filename or content, delete and recreate the attachment.")]
    calls := []
    newState := none }

/-- Result of the id-resolution step of `ScriptV2AttachmentResource.Create`. -/
inductive V2AttachCreateResult where
  | err : String → String → V2AttachCreateResult
  | ok : Int → V2AttachCreateResult
deriving DecidableEq, Repr

/-- Mirrors the attachment-id scan of `ScriptV2AttachmentResource.Create`
(lines 126 to 137): iterate the re-read script attachments and take the
id of the first entry whose filename equals the planned filename. -/
def resolveAttachmentId (atts : Option (List V2Attachment)) (fname : String) : Option Int :=
  match atts with
  | none => none
  | some l => (l.find? fun a => a.filename = fname).map fun a => a.id

/-- Mirrors the post-create resolution of `ScriptV2AttachmentResource.Create`
(lines 109 to 150): after the create call the owning script is re-read
(`GetScript` plus `AsV2Script`); when no attachment carries the planned
filename the method adds the not-found diagnostic and returns without
setting state, otherwise it proceeds with the resolved id. -/
def scriptV2AttachmentCreateResolve (v2 : V2Script) (plannedFilename : String) : V2AttachCreateResult :=
  match resolveAttachmentId v2.attachments plannedFilename with
  | none => .err "Attachment not found after creation" "Could not find the created attachment in the script"
  | some i => .ok i

/-- Mirrors the calls issued by `ScriptV2AttachmentResource.Create` up to
the re-read: the `CreateScriptAttachment` legacy action with the
composite `file` parameter (filename, two dollar signs, base64 content)
and then `GetScript` on the owning script. -/
def scriptV2AttachmentCreateCalls (plan : ScriptAttachmentModel) : List RemoteCall :=
  [.invokeLegacyAction "CreateScriptAttachment"
      [("script_id", .int plan.scriptId.valueInt),
       ("file", .fileB64 plan.filename.valueStr plan.content.valueStr)],
   .getScript plan.scriptId.valueInt]

/-! ## Variant decoding and the read paths

The union decode interface of the external client
(`Discriminator`, `AsV1Script`, `AsV2Script` on the raw script payload)
is embedded as a record of the three decode results; the provider source
only branches on success or failure of each. -/

/-- Decode interface of a raw script payload as the provider consumes
it: the discriminator result and the two structural decode attempts. -/
structure RawScriptPayload where
  discriminator : Except String String
  asV1 : Option V1Script
  asV2 : Option V2Script

/-- Result of a read path: a fatal diagnostic (summary, detail) or a
projected state record.  An error result writes no state. -/
inductive ReadResult (α : Type) where
  | err : String → String → ReadResult α
  | ok : α → ReadResult α
deriving DecidableEq, Repr

/-- Mirrors the V2 fallback tail of `ScriptResource.readScript`
(`script_resource.go` lines 544 to 552): try `AsV2Script`; when that
also fails, add the could-not-convert diagnostic and return no record. -/
def readScriptV2Tail (p : RawScriptPayload) : ReadResult ScriptResourceModel :=
  match p.asV2 with
  | some v2 => .ok (v2ScriptToState v2)
  | none => .err "Failed to convert script"
      "Could not convert returned script into V1 or V2 form"

/-- Mirrors `ScriptResource.readScript` of `script_resource.go`
(lines 508 to 553) after a successful HTTP read: branch on the
discriminator, try the V1 decode first when it says V1 (fetching the
legacy code via the extra round-trip, whose result is the `fetchCode`
argument), and otherwise fall through to the V2 decode; when no decode
succeeds the result is a fatal diagnostic, never a record. -/
def readScript (p : RawScriptPayload) (fetchCode : Except String String) :
    ReadResult ScriptResourceModel :=
  match p.discriminator with
  | .error e => .err "Failed to read script" ("Error getting script: " ++ e)
  | .ok scriptStatus =>
    if scriptStatus = "V1" then
      match p.asV1 with
      | some v1 =>
        match fetchCode with
        | .error e => .err "code fetch failed" e
        | .ok raw => .ok (v1ScriptWithCodeToState v1 raw)
      | none => readScriptV2Tail p
    else readScriptV2Tail p

/-! ## Attachment collection trial projection -/

/-- One element of a raw script attachment collection
(`landscape.Script_Attachments_Item`): `AsLegacyScriptAttachment`
succeeds exactly on a bare filename string, `AsScriptAttachment`
succeeds exactly on an id-plus-filename object. -/
inductive ScriptAttachmentItem where
  | legacy : String → ScriptAttachmentItem
  | modern : Int → String → ScriptAttachmentItem
deriving DecidableEq, Repr

/-- Mirrors the all-elements legacy trial loop (shared by
`ScriptAttachmentItemsAsListOfStringValues` in `shared.go` and the
legacy trial of the dynamic read path): the whole collection projects to
filenames only when every element decodes as a bare string; the first
object-shaped element aborts the trial with no list. -/
def tryLegacyStrings : List ScriptAttachmentItem → Option (List String)
  | [] => some []
  | .legacy f :: rest => (tryLegacyStrings rest).map (f :: ·)
  | .modern _ _ :: _ => none

/-- Mirrors the all-elements modern trial loop (shared by
`ScriptAttachmentItemsAsListOfObjectValues` in `shared.go` and the
object trial of the dynamic read path): the whole collection projects to
id-filename pairs only when every element decodes as an object; the
first bare-string element aborts the trial with no list. -/
def tryModernObjects : List ScriptAttachmentItem → Option (List (Int × String))
  | [] => some []
  | .modern i f :: rest => (tryModernObjects rest).map ((i, f) :: ·)
  | .legacy _ :: _ => none

/-- Mirrors `ScriptAttachmentItemsAsListOfStringValues` of `shared.go`
(lines 17 to 41): empty input reports failure (ok is false), otherwise
the legacy trial; failure is signalled by the boolean, not by a
diagnostic. -/
def scriptAttachmentItemsAsListOfStringValues
    (sai : List ScriptAttachmentItem) : Option (List String) :=
  if sai.isEmpty then none else tryLegacyStrings sai

/-- Mirrors `ScriptAttachmentItemsAsListOfObjectValues` of `shared.go`
(lines 45 to 81): empty input reports failure, otherwise the modern
trial; failure is signalled by the boolean, not by a diagnostic. -/
def scriptAttachmentItemsAsListOfObjectValues
    (sai : List ScriptAttachmentItem) : Option (List (Int × String)) :=
  if sai.isEmpty then none else tryModernObjects sai

/-- What the dynamic read path wrote into the `attachments` attribute:
nothing at all (the attribute stays null), a list of strings, or a list
of id-filename objects. -/
inductive DynAttachments where
  | unset : DynAttachments
  | strings : List String → DynAttachments
  | objects : List (Int × String) → DynAttachments
deriving DecidableEq, Repr

/-- Outcome of the attachment portion of the dynamic-attachment read
path: what was written and which diagnostics were added. -/
structure DynReadOutcome where
  attachments : DynAttachments
  errors : List (String × String)
deriving DecidableEq, Repr

/-- Mirrors the attachment portion of `scriptDataSource.Read`
(`script_data_source.go` lines 287 to 342): the state is first written
with a nil attachments attribute; an absent or empty collection returns
immediately; then the legacy trial, then the modern trial; when neither
trial covers every element the function returns with no attribute write
and, notably, with no diagnostic at all. -/
def dynAttachmentsRead (orig : Option (List ScriptAttachmentItem)) : DynReadOutcome :=
  match orig with
  | none => { attachments := .unset, errors := [] }
  | some items =>
    if items.isEmpty then { attachments := .unset, errors := [] }
    else
      match tryLegacyStrings items with
      | some l => { attachments := .strings l, errors := [] }
      | none =>
        match tryModernObjects items with
        | some l => { attachments := .objects l, errors := [] }
        | none => { attachments := .unset, errors := [] }

/-! ## Data source read path (the variant with a script_type attribute)

`ScriptDataSource.Read` (`script_data_source.go` lines 510 to 558)
projects through `v2ScriptToState` and `v1ToState` variants that carry
an extra `script_type` string; their model adds that one attribute.
Numeric subfields built there with `types.Number` values are embedded
as integers like the rest. -/

/-- Resource model of the script data source variant: the unified model
plus the `script_type` attribute. -/
structure DSScriptModel where
  id : TFVal Int
  title : TFVal String
  accessGroup : TFVal String
  scriptType : TFVal String
  code : TFVal String
  createdAt : TFVal String
  createdBy : TFVal CreatedByObj
  lastEditedAt : TFVal String
  status : TFVal String
  versionNumber : TFVal Int
  username : TFVal String
  timeLimit : TFVal Int
  isEditable : TFVal Bool
  isExecutable : TFVal Bool
  isRedactable : TFVal Bool
  lastEditedBy : TFVal EditorObj
  attachments : TFVal (List AttachmentObj)
  scriptProfiles : TFVal (List ProfileObj)
deriving DecidableEq, Repr

/-- Mirrors the four-argument `v1ScriptToState` used by the data source
read path: identical to `v1ScriptWithCodeToState` (zero-filled creator
subfields included) plus the caller-supplied script type. -/
def dsV1ScriptToState (v1 : V1Script) (rawCode : String) (stateScriptType : String) :
    DSScriptModel :=
  { id := .val v1.id
    title := .val v1.title
    accessGroup := stringPointerValue v1.accessGroup
    scriptType := .val stateScriptType
    code := .val rawCode
    createdAt := .null
    createdBy := .val (v1CreatorToObj v1.creator)
    lastEditedAt := .null
    status := .val v1.status
    versionNumber := .null
    username := stringPointerValue v1.username
    timeLimit := int64PointerValue v1.timeLimit
    isEditable := .null
    isExecutable := .null
    isRedactable := .null
    lastEditedBy := .null
    attachments := v1AttachmentsToObjs v1.attachments
    scriptProfiles := .null }

/-- Mirrors the three-argument `v2ScriptToState` used by the data source
read path: identical to the unified `v2ScriptToState` plus the
caller-supplied script type. -/
def dsV2ScriptToState (s : V2Script) (stateScriptType : String) : DSScriptModel :=
  { id := .val s.id
    title := .val s.title
    accessGroup := stringPointerValue s.accessGroup
    scriptType := .val stateScriptType
    code := v2MergedCode s
    createdAt := stringPointerValue s.createdAt
    createdBy := v2CreatedByToObj s.createdBy
    lastEditedAt := stringPointerValue s.lastEditedAt
    status := .val s.status
    versionNumber := int64PointerValue s.versionNumber
    username := stringPointerValue s.username
    timeLimit := int64PointerValue s.timeLimit
    isEditable := boolPointerValue s.isEditable
    isExecutable := boolPointerValue s.isExecutable
    isRedactable := boolPointerValue s.isRedactable
    lastEditedBy := v2LastEditedByToObj s.lastEditedBy
    attachments := v2AttachmentsToObjs s.attachments
    scriptProfiles := v2ProfilesToObjs s.scriptProfiles }

/-- Mirrors `ScriptDataSource.Read` of `script_data_source.go`
(lines 510 to 558) after a successful HTTP read: try the V2 decode
first; on failure try the V1 decode (with the extra legacy code fetch,
whose result is `fetchCode`); when both decodes fail the result is the
could-not-convert diagnostic, never a record. -/
def scriptDataSourceRead (p : RawScriptPayload) (fetchCode : Except String String) :
    ReadResult DSScriptModel :=
  match p.asV2 with
  | some v2 => .ok (dsV2ScriptToState v2 "V2")
  | none =>
    match p.asV1 with
    | some v1 =>
      match fetchCode with
      | .error e => .err "code fetch failed" e
      | .ok raw => .ok (dsV1ScriptToState v1 raw "V1")
    | none => .err "Failed to convert script"
        "Could not convert returned script into V1 or V2 form"

/-- Mirrors the dispatch of `ScriptV2Resource.Update`: the encoded vals
are sent as one `EditScript` legacy action. -/
def scriptV2UpdateCall (plan state : ScriptV2ResourceModel) : RemoteCall :=
  .invokeLegacyAction "EditScript" (scriptV2UpdateVals plan state)

/-! ## Shared helper lemmas -/

/-- The merged-code value is null whenever either subfield is absent. -/
theorem v2MergedCode_null_of (s : V2Script)
    (h : s.interpreter = none ∨ s.code = none) : v2MergedCode s = .null := by
  cases hi : s.interpreter <;> cases hc : s.code <;> simp_all [v2MergedCode]

/-- A modern (object-shaped) element anywhere in the collection makes
the legacy trial fail as a whole. -/
theorem tryLegacyStrings_eq_none_of_modern (items : List ScriptAttachmentItem)
    (i : Int) (f : String) (h : ScriptAttachmentItem.modern i f ∈ items) :
    tryLegacyStrings items = none := by
  induction items with
  | nil => cases h
  | cons hd tl ih =>
    cases hd with
    | legacy g =>
      have htl : ScriptAttachmentItem.modern i f ∈ tl := by
        rcases List.mem_cons.mp h with h' | h'
        · exact absurd h' (by simp)
        · exact h'
      simp [tryLegacyStrings, ih htl]
    | modern j g => simp [tryLegacyStrings]

/-- A legacy (bare-string) element anywhere in the collection makes the
modern trial fail as a whole. -/
theorem tryModernObjects_eq_none_of_legacy (items : List ScriptAttachmentItem)
    (f : String) (h : ScriptAttachmentItem.legacy f ∈ items) :
    tryModernObjects items = none := by
  induction items with
  | nil => cases h
  | cons hd tl ih =>
    cases hd with
    | legacy g => simp [tryModernObjects]
    | modern j g =>
      have htl : ScriptAttachmentItem.legacy f ∈ tl := by
        rcases List.mem_cons.mp h with h' | h'
        · exact absurd h' (by simp)
        · exact h'
      simp [tryModernObjects, ih htl]

/-- A successful legacy trial covers every element of the collection. -/
theorem tryLegacyStrings_length (items : List ScriptAttachmentItem)
    (l : List String) (h : tryLegacyStrings items = some l) :
    l.length = items.length := by
  induction items generalizing l with
  | nil => simp [tryLegacyStrings] at h; simp [h]
  | cons hd tl ih =>
    cases hd with
    | legacy g =>
      simp only [tryLegacyStrings, Option.map_eq_some'] at h
      obtain ⟨l', hl', rfl⟩ := h
      simp [ih l' hl']
    | modern j g => simp [tryLegacyStrings] at h

/-- A successful modern trial covers every element of the collection. -/
theorem tryModernObjects_length (items : List ScriptAttachmentItem)
    (l : List (Int × String)) (h : tryModernObjects items = some l) :
    l.length = items.length := by
  induction items generalizing l with
  | nil => simp [tryModernObjects] at h; simp [h]
  | cons hd tl ih =>
    cases hd with
    | legacy g => simp [tryModernObjects] at h
    | modern j g =>
      simp only [tryModernObjects, Option.map_eq_some'] at h
      obtain ⟨l', hl', rfl⟩ := h
      simp [ih l' hl']

/-! ## Sample inputs for closed witnesses and counterexamples -/

/-- Baseline modern script with every optional field absent. -/
def baseV2 : V2Script :=
  { id := 1, title := "t", accessGroup := none, interpreter := none,
    code := none, createdAt := none, createdBy := none,
    lastEditedAt := none, lastEditedBy := none, status := "ACTIVE",
    versionNumber := none, username := none, timeLimit := none,
    isEditable := none, isExecutable := none, isRedactable := none,
    attachments := none, scriptProfiles := none }

/-- Baseline legacy script with every optional field absent
(including all creator subfields). -/
def baseV1 : V1Script :=
  { id := 3, title := "t", accessGroup := none, username := none,
    timeLimit := none,
    creator := { id := none, name := none, email := none },
    status := "V1", attachments := none }

/-- Baseline unified state record (all attributes null except the id). -/
def baseUnifiedState : ScriptResourceModel :=
  { id := .val 5, title := .null, accessGroup := .null, code := .null,
    createdAt := .null, createdBy := .null, lastEditedAt := .null,
    status := .null, versionNumber := .null, username := .null,
    timeLimit := .null, isEditable := .null, isExecutable := .null,
    isRedactable := .null, lastEditedBy := .null, attachments := .null,
    scriptProfiles := .null }

/-- Baseline dedicated V2 state record. -/
def baseV2State : ScriptV2ResourceModel :=
  { id := .val 5, title := .val "t", accessGroup := .null,
    code := .val "c", createdAt := .null, createdBy := .null,
    lastEditedAt := .null, status := .val "ACTIVE",
    versionNumber := .null, username := .val "u",
    timeLimit := .val 60, isEditable := .null, isExecutable := .null,
    isRedactable := .null, lastEditedBy := .null, attachments := .null,
    scriptProfiles := .null }

/-- Baseline dedicated V1 state record. -/
def baseV1State : ScriptV1ResourceModel :=
  { id := .val 9, title := .val "t", accessGroup := .null,
    code := .val "c", createdBy := .null, status := .val "V1",
    username := .null, timeLimit := .null, attachments := .null }

/-- Baseline attachment plan/state record. -/
def baseAttachment : ScriptAttachmentModel :=
  { id := .val 4, scriptId := .val 5, filename := .val "a.txt",
    content := .val "data" }

/-! ## Claim theorems -/

/-- C1: for every modern script payload with both the interpreter and
the code subfield present, both V2 projections produce the merged code
value equal to the interpreter line (hash-bang plus interpreter), then a
newline, then the body, exactly. -/
theorem v2_merged_code_convention (s : V2Script) (i c : String)
    (hi : s.interpreter = some i) (hc : s.code = some c) :
    (v2ScriptToState s).code = .val ("#!" ++ i ++ "\n" ++ c) ∧
    (v2ScriptToResourceState s).code = .val ("#!" ++ i ++ "\n" ++ c) := by
  constructor <;>
    simp [v2ScriptToState, v2ScriptToResourceState, v2MergedCode, hi, hc]

/-- C1 witness: the convention evaluated at a concrete payload. -/
theorem v2_merged_code_convention_witness :
    (v2ScriptToState { baseV2 with interpreter := some "/bin/bash", code := some "echo hi" }).code
        = .val ("#!" ++ "/bin/bash" ++ "\n" ++ "echo hi") ∧
    (v2ScriptToResourceState { baseV2 with interpreter := some "/bin/bash", code := some "echo hi" }).code
        = .val ("#!" ++ "/bin/bash" ++ "\n" ++ "echo hi") :=
  v2_merged_code_convention _ "/bin/bash" "echo hi" rfl rfl

/-- C6: for every modern script payload missing the interpreter subfield
or the code subfield, both V2 projections leave the merged code value
null, never a partially built string. -/
theorem v2_merged_code_absent_half (s : V2Script)
    (h : s.interpreter = none ∨ s.code = none) :
    (v2ScriptToState s).code = .null ∧
    (v2ScriptToResourceState s).code = .null := by
  constructor <;>
    simp [v2ScriptToState, v2ScriptToResourceState, v2MergedCode_null_of s h]

/-- C6 witness: merged code of a payload with a body but no interpreter
is null in both projections. -/
theorem v2_merged_code_absent_half_witness :
    (v2ScriptToState { baseV2 with code := some "echo hi" }).code = .null ∧
    (v2ScriptToResourceState { baseV2 with code := some "echo hi" }).code = .null :=
  v2_merged_code_absent_half { baseV2 with code := some "echo hi" } (Or.inl rfl)

/-- C5: for every raw payload that decodes as neither the legacy nor the
modern variant, both read paths (`ScriptResource.readScript` and
`ScriptDataSource.Read`) return the fatal could-not-convert diagnostic
and never return a state record. -/
theorem unrecognized_shape_fatal (p : RawScriptPayload)
    (fetch : Except String String)
    (h1 : p.asV1 = none) (h2 : p.asV2 = none) :
    (∀ st, p.discriminator = .ok st →
        readScript p fetch = .err "Failed to convert script"
          "Could not convert returned script into V1 or V2 form") ∧
    scriptDataSourceRead p fetch = .err "Failed to convert script"
      "Could not convert returned script into V1 or V2 form" ∧
    (∀ m, readScript p fetch ≠ .ok m) ∧
    (∀ m, scriptDataSourceRead p fetch ≠ .ok m) := by
  have tail : readScriptV2Tail p = .err "Failed to convert script"
      "Could not convert returned script into V1 or V2 form" := by
    simp [readScriptV2Tail, h2]
  refine ⟨?_, ?_, ?_, ?_⟩
  · intro st hst
    by_cases hv : st = "V1" <;> simp [readScript, hst, h1, hv, tail]
  · simp [scriptDataSourceRead, h1, h2]
  · intro m
    cases hd : p.discriminator with
    | error e => simp [readScript, hd]
    | ok st =>
      by_cases hv : st = "V1" <;> simp [readScript, hd, h1, hv, tail]
  · intro m
    simp [scriptDataSourceRead, h1, h2]

/-- C5 witness: a payload failing both structural decodes, evaluated
concretely on both read paths. -/
theorem unrecognized_shape_fatal_witness :
    readScript { discriminator := .ok "BOGUS", asV1 := none, asV2 := none } (.ok "")
        = .err "Failed to convert script" "Could not convert returned script into V1 or V2 form" ∧
    scriptDataSourceRead { discriminator := .ok "BOGUS", asV1 := none, asV2 := none } (.ok "")
        = .err "Failed to convert script" "Could not convert returned script into V1 or V2 form" :=
  ⟨(unrecognized_shape_fatal _ (.ok "") rfl rfl).1 "BOGUS" rfl,
   (unrecognized_shape_fatal { discriminator := .ok "BOGUS", asV1 := none, asV2 := none } (.ok "") rfl rfl).2.1⟩

/-- C8: in the unified projections, every legacy attachment entry gets
an explicitly null id (never a fabricated number) and every modern
attachment entry keeps its present numeric id. -/
theorem attachment_id_presence_by_variant :
    (∀ (v1 : V1Script) (raw : String) (fs : List String),
      v1.attachments = some fs →
      (v1ScriptWithCodeToState v1 raw).attachments =
        .val (fs.map fun f => { id := .null, filename := .val f })) ∧
    (∀ (s : V2Script) (l : List V2Attachment),
      s.attachments = some l →
      (v2ScriptToState s).attachments =
        .val (l.map fun a => { id := .val a.id, filename := .val a.filename })) := by
  constructor
  · intro v1 raw fs h
    simp [v1ScriptWithCodeToState, v1AttachmentsToObjs, h]
  · intro s l h
    simp [v2ScriptToState, v2AttachmentsToObjs, h]

/-- C8 witness: both projections evaluated at concrete one-element
collections. -/
theorem attachment_id_presence_by_variant_witness :
    (v1ScriptWithCodeToState { baseV1 with attachments := some ["a.txt"] } "c").attachments
        = .val [{ id := .null, filename := .val "a.txt" }] ∧
    (v2ScriptToState { baseV2 with attachments := some [{ id := 7, filename := "b.txt" }] }).attachments
        = .val [{ id := .val 7, filename := .val "b.txt" }] :=
  ⟨attachment_id_presence_by_variant.1 _ "c" ["a.txt"] rfl,
   attachment_id_presence_by_variant.2 _ [{ id := 7, filename := "b.txt" }] rfl⟩

/-- C9: every update attempt on either attachment resource adds the
unsupported-recreate diagnostic, issues no remote call and writes no
state. -/
theorem attachment_update_unsupported (plan state : ScriptAttachmentModel) :
    (scriptAttachmentResourceUpdate plan state).calls = [] ∧
    (scriptAttachmentResourceUpdate plan state).newState = none ∧
    (scriptAttachmentResourceUpdate plan state).errors =
      [("Update not supported for script attachments",
        "Script attachments are immutable. To change the filename or content, delete and recreate the attachment.")] ∧
    (scriptV2AttachmentResourceUpdate plan state).calls = [] ∧
    (scriptV2AttachmentResourceUpdate plan state).newState = none ∧
    (scriptV2AttachmentResourceUpdate plan state).errors =
      [("Update not supported for script attachments",
        "Script attachments are immutable. To change the filename or content, delete and recreate the attachment.")] :=
  ⟨rfl, rfl, rfl, rfl, rfl, rfl⟩

/-- C10: after a successful V2 attachment creation the id is resolved as
the id of the first attachment of the re-read script whose filename
equals the planned filename; when no filename matches, creation fails
with the not-found diagnostic and sets no state. -/
theorem v2_attachment_id_resolution :
    (∀ (v2 : V2Script) (fname : String),
      (∀ a ∈ v2.attachments.getD [], a.filename ≠ fname) →
      scriptV2AttachmentCreateResolve v2 fname =
        .err "Attachment not found after creation"
          "Could not find the created attachment in the script") ∧
    (∀ (v2 : V2Script) (fname : String) (l : List V2Attachment) (a : V2Attachment),
      v2.attachments = some l →
      l.find? (fun x => x.filename = fname) = some a →
      scriptV2AttachmentCreateResolve v2 fname = .ok a.id) := by
  constructor
  · intro v2 fname h
    unfold scriptV2AttachmentCreateResolve resolveAttachmentId
    cases hatt : v2.attachments with
    | none => rfl
    | some l =>
      have hnone : l.find? (fun a => a.filename = fname) = none := by
        rw [List.find?_eq_none]
        intro x hx
        simp only [decide_eq_true_eq]
        exact h x (by simp [hatt, hx])
      simp [hnone]
  · intro v2 fname l a hatt hfind
    unfold scriptV2AttachmentCreateResolve resolveAttachmentId
    simp [hatt, hfind]

/-- C10 witness: resolution evaluated at a script carrying one
attachment, once with a missing filename and once with the matching
one. -/
theorem v2_attachment_id_resolution_witness :
    scriptV2AttachmentCreateResolve
        { baseV2 with attachments := some [{ id := 7, filename := "b.txt" }] } "zzz"
      = .err "Attachment not found after creation"
          "Could not find the created attachment in the script" ∧
    scriptV2AttachmentCreateResolve
        { baseV2 with attachments := some [{ id := 7, filename := "b.txt" }] } "b.txt"
      = .ok 7 :=
  ⟨v2_attachment_id_resolution.1 _ "zzz" (by decide),
   v2_attachment_id_resolution.2 _ "b.txt" [{ id := 7, filename := "b.txt" }]
      { id := 7, filename := "b.txt" } rfl (by decide)⟩

/-- C2 counterexample: a two-element collection mixing a bare filename
and an id-filename object makes both helper trials fail (ok is false),
and the dynamic-attachment read path adds NO diagnostic at all — the
claim that the mixed case is surfaced as a decode error is false. -/
theorem mixed_attachments_counterexample :
    dynAttachmentsRead
        (some [ScriptAttachmentItem.legacy "a.txt", ScriptAttachmentItem.modern 1 "b.txt"]) =
      { attachments := .unset, errors := [] } ∧
    scriptAttachmentItemsAsListOfStringValues
        [ScriptAttachmentItem.legacy "a.txt", ScriptAttachmentItem.modern 1 "b.txt"] = none ∧
    scriptAttachmentItemsAsListOfObjectValues
        [ScriptAttachmentItem.legacy "a.txt", ScriptAttachmentItem.modern 1 "b.txt"] = none :=
  ⟨rfl, rfl, rfl⟩

/-- C2 amended: for every mixed collection neither trial succeeds, the
helpers report failure through their boolean (never a partial list), and
the dynamic-attachment read path writes no attachment value and surfaces
NO error diagnostic — the mixed collection is dropped whole, silently;
moreover any successful trial covers every element, so a partial list is
never produced. -/
theorem mixed_attachments_dropped_silently :
    (∀ (items : List ScriptAttachmentItem) (f : String) (i : Int) (g : String),
      ScriptAttachmentItem.legacy f ∈ items →
      ScriptAttachmentItem.modern i g ∈ items →
      scriptAttachmentItemsAsListOfStringValues items = none ∧
      scriptAttachmentItemsAsListOfObjectValues items = none ∧
      dynAttachmentsRead (some items) = { attachments := .unset, errors := [] }) ∧
    (∀ (items : List ScriptAttachmentItem) (l : List String),
      tryLegacyStrings items = some l → l.length = items.length) ∧
    (∀ (items : List ScriptAttachmentItem) (l : List (Int × String)),
      tryModernObjects items = some l → l.length = items.length) := by
  refine ⟨?_, tryLegacyStrings_length, tryModernObjects_length⟩
  intro items f i g hleg hmod
  have hl := tryLegacyStrings_eq_none_of_modern items i g hmod
  have hm := tryModernObjects_eq_none_of_legacy items f hleg
  have hne : items.isEmpty = false := by
    cases items with
    | nil => cases hleg
    | cons hd tl => rfl
  refine ⟨?_, ?_, ?_⟩
  · simp [scriptAttachmentItemsAsListOfStringValues, hne, hl]
  · simp [scriptAttachmentItemsAsListOfObjectValues, hne, hm]
  · simp [dynAttachmentsRead, hne, hl, hm]

/-- C2 amended witness: the amended behaviour evaluated at the concrete
mixed two-element collection. -/
theorem mixed_attachments_dropped_silently_witness :
    scriptAttachmentItemsAsListOfStringValues
        [ScriptAttachmentItem.legacy "x.txt", ScriptAttachmentItem.modern 2 "y.txt"] = none ∧
    scriptAttachmentItemsAsListOfObjectValues
        [ScriptAttachmentItem.legacy "x.txt", ScriptAttachmentItem.modern 2 "y.txt"] = none ∧
    dynAttachmentsRead
        (some [ScriptAttachmentItem.legacy "x.txt", ScriptAttachmentItem.modern 2 "y.txt"]) =
      { attachments := .unset, errors := [] } :=
  mixed_attachments_dropped_silently.1
    [ScriptAttachmentItem.legacy "x.txt", ScriptAttachmentItem.modern 2 "y.txt"]
    "x.txt" 2 "y.txt" (by simp) (by simp)

/-- C3 counterexample: on the unified script resource, delete of a
modern-variant state (stored status ACTIVE, known id) issues NO remote
call at all — in particular no archive call — refuting the claim that
the unified resource archives modern scripts on delete. -/
theorem unified_delete_modern_counterexample :
    scriptResourceDelete { baseUnifiedState with status := .val "ACTIVE" } = [] ∧
    ({ baseUnifiedState with status := .val "ACTIVE" } : ScriptResourceModel).status
        = .val "ACTIVE" ∧
    ({ baseUnifiedState with status := .val "ACTIVE" } : ScriptResourceModel).id = .val 5 :=
  ⟨rfl, rfl, rfl⟩

/-- C3 amended: delete on the dedicated V2 resource always issues
exactly one archive call and never a remove call; delete on the
dedicated V1 resource with a known id issues exactly one remove call;
the unified resource issues a remove call only when the stored status is
the value V1 (and the id is known), and for any other stored status it
issues no remote call at all — neither archive nor remove. -/
theorem delete_variant_dispatch (stV2 : ScriptV2ResourceModel)
    (stV1 : ScriptV1ResourceModel) (stU stU2 : ScriptResourceModel)
    (hV1 : stV1.id.isNullOrUnknown = false)
    (hUid : stU.id.isNullOrUnknown = false) (hUst : stU.status = .val "V1")
    (hU2 : stU2.status ≠ .val "V1") :
    scriptV2ResourceDelete stV2 = [.archiveScript stV2.id.valueInt] ∧
    scriptV1ResourceDelete stV1 =
      [.invokeLegacyAction "RemoveScript" [("script_id", .int stV1.id.valueInt)]] ∧
    scriptResourceDelete stU =
      [.invokeLegacyAction "RemoveScript" [("script_id", .int stU.id.valueInt)]] ∧
    scriptResourceDelete stU2 = [] := by
  refine ⟨rfl, ?_, ?_, ?_⟩
  · simp [scriptV1ResourceDelete, hV1]
  · simp [scriptResourceDelete, hUid, hUst]
  · by_cases hid : stU2.id.isNullOrUnknown <;> simp [scriptResourceDelete, hid, hU2]

/-- C3 amended witness: the dispatch evaluated at concrete V2, V1 and
unified states (the last once with status V1 and once with status
ACTIVE). -/
theorem delete_variant_dispatch_witness :
    scriptV2ResourceDelete baseV2State = [.archiveScript 5] ∧
    scriptV1ResourceDelete baseV1State =
      [.invokeLegacyAction "RemoveScript" [("script_id", .int 9)]] ∧
    scriptResourceDelete { baseUnifiedState with status := .val "V1" } =
      [.invokeLegacyAction "RemoveScript" [("script_id", .int 5)]] ∧
    scriptResourceDelete { baseUnifiedState with status := .val "ARCHIVED" } = [] :=
  delete_variant_dispatch baseV2State baseV1State
    { baseUnifiedState with status := .val "V1" }
    { baseUnifiedState with status := .val "ARCHIVED" }
    rfl rfl rfl (by decide)

/-- C4 counterexample: updating only the title of a modern-variant
resource while username and time limit are unchanged (and known,
non-null) produces an EditScript request that still contains
`time_limit` and `username`, refuting the claim that unchanged
parameters are omitted; only `code` is omitted when unchanged. -/
theorem update_resends_unchanged_counterexample :
    scriptV2UpdateCall { baseV2State with title := .val "t2" } baseV2State =
      .invokeLegacyAction "EditScript"
        [("script_id", .int 5), ("title", .str "t2"),
         ("time_limit", .int 60), ("username", .str "u")] ∧
    ({ baseV2State with title := .val "t2" } : ScriptV2ResourceModel).username
        = baseV2State.username ∧
    ({ baseV2State with title := .val "t2" } : ScriptV2ResourceModel).timeLimit
        = baseV2State.timeLimit ∧
    ({ baseV2State with title := .val "t2" } : ScriptV2ResourceModel).code
        = baseV2State.code := by
  refine ⟨?_, rfl, rfl, rfl⟩
  simp [scriptV2UpdateCall, scriptV2UpdateVals, baseV2State,
    TFVal.isNullOrUnknown, TFVal.valueStr, TFVal.valueInt]

/-- C4 amended: besides `script_id` (always present), the encoded
EditScript request contains `title`, `time_limit` and `username` exactly
when the planned value is known and non-null — regardless of whether it
differs from prior state — and contains `code` exactly when the planned
code is known, non-null and differs from the prior state code; no other
keys occur.  This holds for both the dedicated V2 update and the unified
update encoder. -/
theorem scriptV2UpdateVals_keys (plan state : ScriptV2ResourceModel) :
    "script_id" ∈ paramKeys (scriptV2UpdateVals plan state) ∧
    ("title" ∈ paramKeys (scriptV2UpdateVals plan state) ↔
        plan.title.isNullOrUnknown = false) ∧
    ("time_limit" ∈ paramKeys (scriptV2UpdateVals plan state) ↔
        plan.timeLimit.isNullOrUnknown = false) ∧
    ("username" ∈ paramKeys (scriptV2UpdateVals plan state) ↔
        plan.username.isNullOrUnknown = false) ∧
    ("code" ∈ paramKeys (scriptV2UpdateVals plan state) ↔
        plan.code.isNullOrUnknown = false ∧ plan.code ≠ state.code) ∧
    (∀ k ∈ paramKeys (scriptV2UpdateVals plan state),
        k ∈ ["script_id", "title", "time_limit", "username", "code"]) := by
  unfold scriptV2UpdateVals paramKeys
  by_cases h1 : plan.title.isNullOrUnknown <;>
  by_cases h2 : plan.timeLimit.isNullOrUnknown <;>
  by_cases h3 : plan.username.isNullOrUnknown <;>
  by_cases h4 : ¬plan.code.isNullOrUnknown ∧ plan.code ≠ state.code <;>
    simp_all [not_and_or]

theorem updateScriptVals_keys (planU stateU : ScriptResourceModel) :
    "script_id" ∈ paramKeys (updateScriptVals planU stateU) ∧
    ("title" ∈ paramKeys (updateScriptVals planU stateU) ↔
        planU.title.isNullOrUnknown = false) ∧
    ("time_limit" ∈ paramKeys (updateScriptVals planU stateU) ↔
        planU.timeLimit.isNullOrUnknown = false) ∧
    ("username" ∈ paramKeys (updateScriptVals planU stateU) ↔
        planU.username.isNullOrUnknown = false) ∧
    ("code" ∈ paramKeys (updateScriptVals planU stateU) ↔
        planU.code.isNullOrUnknown = false ∧ planU.code ≠ stateU.code) ∧
    (∀ k ∈ paramKeys (updateScriptVals planU stateU),
        k ∈ ["script_id", "title", "time_limit", "username", "code"]) := by
  unfold updateScriptVals paramKeys
  by_cases h1 : planU.title.isNullOrUnknown <;>
  by_cases h2 : planU.timeLimit.isNullOrUnknown <;>
  by_cases h3 : planU.username.isNullOrUnknown <;>
  by_cases h4 : ¬planU.code.isNullOrUnknown ∧ planU.code ≠ stateU.code <;>
    simp_all [not_and_or]

/-- C4 amended: besides `script_id` (always present), the encoded
EditScript request contains `title`, `time_limit` and `username` exactly
when the planned value is known and non-null — regardless of whether it
differs from prior state — and contains `code` exactly when the planned
code is known, non-null and differs from the prior state code; no other
keys occur.  This holds for both the dedicated V2 update and the unified
update encoder. -/
theorem update_vals_key_characterization (plan state : ScriptV2ResourceModel)
    (planU stateU : ScriptResourceModel) :
    ("script_id" ∈ paramKeys (scriptV2UpdateVals plan state) ∧
     ("title" ∈ paramKeys (scriptV2UpdateVals plan state) ↔
        plan.title.isNullOrUnknown = false) ∧
     ("time_limit" ∈ paramKeys (scriptV2UpdateVals plan state) ↔
        plan.timeLimit.isNullOrUnknown = false) ∧
     ("username" ∈ paramKeys (scriptV2UpdateVals plan state) ↔
        plan.username.isNullOrUnknown = false) ∧
     ("code" ∈ paramKeys (scriptV2UpdateVals plan state) ↔
        plan.code.isNullOrUnknown = false ∧ plan.code ≠ state.code) ∧
     (∀ k ∈ paramKeys (scriptV2UpdateVals plan state),
        k ∈ ["script_id", "title", "time_limit", "username", "code"])) ∧
    ("script_id" ∈ paramKeys (updateScriptVals planU stateU) ∧
     ("title" ∈ paramKeys (updateScriptVals planU stateU) ↔
        planU.title.isNullOrUnknown = false) ∧
     ("time_limit" ∈ paramKeys (updateScriptVals planU stateU) ↔
        planU.timeLimit.isNullOrUnknown = false) ∧
     ("username" ∈ paramKeys (updateScriptVals planU stateU) ↔
        planU.username.isNullOrUnknown = false) ∧
     ("code" ∈ paramKeys (updateScriptVals planU stateU) ↔
        planU.code.isNullOrUnknown = false ∧ planU.code ≠ stateU.code) ∧
     (∀ k ∈ paramKeys (updateScriptVals planU stateU),
        k ∈ ["script_id", "title", "time_limit", "username", "code"])) :=
  ⟨scriptV2UpdateVals_keys plan state, updateScriptVals_keys planU stateU⟩

/-- C4 amended witness: the characterization applied at concrete plan
and state records. -/
theorem update_vals_key_characterization_witness :
    "script_id" ∈ paramKeys (scriptV2UpdateVals baseV2State baseV2State) ∧
    ("title" ∈ paramKeys (scriptV2UpdateVals baseV2State baseV2State) ↔
        (baseV2State.title).isNullOrUnknown = false) ∧
    "script_id" ∈ paramKeys (updateScriptVals baseUnifiedState baseUnifiedState) :=
  ⟨(update_vals_key_characterization baseV2State baseV2State baseUnifiedState baseUnifiedState).1.1,
   (update_vals_key_characterization baseV2State baseV2State baseUnifiedState baseUnifiedState).1.2.1,
   (update_vals_key_characterization baseV2State baseV2State baseUnifiedState baseUnifiedState).2.1⟩

/-- C7 counterexample: a legacy payload whose creator id, name and email
are all missing is projected with a PRESENT created_by object holding
the zero values (id 0, empty name, empty email) in both projections —
not the explicit null the claim requires. -/
theorem v1_creator_zero_filled_counterexample :
    (v1ScriptWithCodeToState baseV1 "code").createdBy =
      .val { id := .val 0, name := .val "", email := .val "" } ∧
    (v1ScriptToResourceState baseV1 "code").createdBy =
      .val { id := .val 0, name := .val "", email := .val "" } ∧
    baseV1.creator = { id := none, name := none, email := none } :=
  ⟨rfl, rfl, rfl⟩

/-- C7 amended: in the legacy projections the optional scalar fields
(access group, username, time limit) are explicit null exactly when
missing from the payload, but the created creator object is always
present with each missing subfield zero-filled (0 for the id, the empty
string for name and email) rather than null. -/
theorem v1_projection_field_population (v1 : V1Script) (raw : String) :
    ((v1ScriptWithCodeToState v1 raw).accessGroup = .null ↔ v1.accessGroup = none) ∧
    ((v1ScriptWithCodeToState v1 raw).username = .null ↔ v1.username = none) ∧
    ((v1ScriptWithCodeToState v1 raw).timeLimit = .null ↔ v1.timeLimit = none) ∧
    (v1ScriptWithCodeToState v1 raw).createdBy =
      .val { id := .val (v1.creator.id.getD 0),
             name := .val (v1.creator.name.getD ""),
             email := .val (v1.creator.email.getD "") } ∧
    (v1ScriptToResourceState v1 raw).createdBy =
      .val { id := .val (v1.creator.id.getD 0),
             name := .val (v1.creator.name.getD ""),
             email := .val (v1.creator.email.getD "") } := by
  refine ⟨?_, ?_, ?_, rfl, rfl⟩
  · cases h : v1.accessGroup <;>
      simp [v1ScriptWithCodeToState, stringPointerValue, h]
  · cases h : v1.username <;>
      simp [v1ScriptWithCodeToState, stringPointerValue, h]
  · cases h : v1.timeLimit <;>
      simp [v1ScriptWithCodeToState, int64PointerValue, h]

end Landscape
